import Mathlib

/-!
Verification of the access-control and social-graph model of a Flask blog
application (`app/models.py`), shallowly embedded in Lean 4.

The embedding follows the Python source:
  - `Permission` bit constants;
  - `Role` rows and `Role.insert_roles`;
  - the `follows` association table as a list of `Follow` rows (the
    view the SQLAlchemy session has of the table, in insertion order);
  - `User.can`, `AnonymousUser.can`, `User.follow`, `User.unfollow`,
    `User.is_following`, `User.is_followed_by`, the self-follow appended by
    `User.__init__`;
  - the itsdangerous token round trips (`generate_confirmation_token` /
    `confirm`, `generate_reset_token` / `reset_password`,
    `generate_email_change_token` / `change_email`), where a token is
    modelled as `Option` of its decoded payload: `none` stands for a token
    that `Serializer.loads` rejects (tampered or expired), `some d` for a
    token whose signature and expiry check out with payload `d`;
  - the Markdown/bleach rendering pipeline of `Post.on_changed_body` and
    `Comment.on_changed_body` (the two external libraries are modelled from
    the spec, see below).
-/

/-! Permission bit constants from `class Permission` in app/models.py. -/

namespace Permission

def FOLLOW : Nat := 0x01

def COMMENT : Nat := 0x02

def WRITE_ARTICLES : Nat := 0x04

def MODERATE_COMMENTS : Nat := 0x08

def ADMINISTER : Nat := 0x80

end Permission

/-- A row of the `roles` table: name, permission bit mask, default flag. -/
structure Role where
  name : String
  permissions : Nat
  default : Bool
deriving DecidableEq, Repr

/-- The `roles` dict literal inside `Role.insert_roles`:
name, permission mask (bitwise or of `Permission` constants), default flag. -/
def rolesDict : List (String × Nat × Bool) :=
  [("User", Nat.lor (Nat.lor Permission.FOLLOW Permission.COMMENT)
      Permission.WRITE_ARTICLES, true),
   ("Moderator", Nat.lor (Nat.lor (Nat.lor Permission.FOLLOW
      Permission.COMMENT) Permission.WRITE_ARTICLES)
      Permission.MODERATE_COMMENTS, false),
   ("Administrator", 0xff, false)]

/-- `Role.insert_roles`: upsert each entry of `rolesDict` into the role
table, keyed by role name — an existing row of that name is updated in
place, otherwise a new row is appended. -/
def insert_roles (table : List Role) : List Role :=
  rolesDict.foldl (fun tbl entry =>
    if (tbl.filter (fun r => r.name == entry.1)).head?.isSome then
      tbl.map (fun r =>
        if r.name == entry.1 then
          { r with permissions := entry.2.1, default := entry.2.2 }
        else r)
    else tbl ++ [{ name := entry.1, permissions := entry.2.1,
                   default := entry.2.2 }]) table

/-- The permission masks of the roles installed by `insert_roles`. -/
def rolePermissionValues : List Nat := rolesDict.map (fun e => e.2.1)

/-- The five defined permission masks. -/
def definedMasks : List Nat :=
  [Permission.FOLLOW, Permission.COMMENT, Permission.WRITE_ARTICLES,
   Permission.MODERATE_COMMENTS, Permission.ADMINISTER]

/-- A row of the `follows` association table (`class Follow`): a directed
edge from `follower` to `followed`, stamped with its insertion time
(`datetime.utcnow`, modelled as an abstract `Nat` clock). -/
structure Follow where
  follower : Nat
  followed : Nat
  timestamp : Nat
deriving DecidableEq, Repr

/-- A decoded token payload: the JSON dict that `Serializer.loads` returns.
Values are ints (user ids) or strings (email addresses). -/
inductive JVal where
  | jnat (n : Nat) : JVal
  | jstr (s : String) : JVal
deriving DecidableEq, Repr

/-- A token as the verifier sees it: `none` when `Serializer.loads` raises
(bad signature or expired), `some d` when it returns payload `d`. -/
def Tok : Type := Option (List (String × JVal))

/-- `data.get(key)` restricted to int values: `some n` when the dict maps
`key` to the int `n`, `none` otherwise (missing key or non-int value; in
either case the Python comparison `data.get(key) != self.id` is true). -/
def pgetNat (data : List (String × JVal)) (key : String) : Option Nat :=
  match data.lookup key with
  | some (JVal.jnat n) => some n
  | _ => none

/-- `data.get(key)` restricted to string values. -/
def pgetStr (data : List (String × JVal)) (key : String) : Option String :=
  match data.lookup key with
  | some (JVal.jstr s) => some s
  | _ => none

/-- A row of the `users` table, with the fields the verified operations
touch. `avatar_has` is the stray attribute that `change_email` assigns
(the source writes `self.avatar_has`, a name distinct from the
`avatar_hash` column); it exists on the Python object as a plain instance
attribute and is modelled here as an extra field, `none` until written. -/
structure User where
  id : Nat
  email : Option String
  role : Option Role
  password_hash : Option String
  confirmed : Bool
  avatar_hash : Option String
  avatar_has : Option String
deriving DecidableEq, Repr

/-- `User.can`: the user has a non-null role and the permission mask of the role
bitwise-and the requested mask equals the requested mask. -/
def User.can (u : User) (permissions : Nat) : Bool :=
  match u.role with
  | none => false
  | some r => Nat.land r.permissions permissions == permissions

/-- `User.is_administrator`: `can(Permission.ADMINISTER)`. -/
def User.is_administrator (u : User) : Bool :=
  u.can Permission.ADMINISTER

/-- The anonymous principal (`class AnonymousUser`). -/
structure AnonymousUser where
deriving DecidableEq, Repr

/-- `AnonymousUser.can`: always `False`. -/
def AnonymousUser.can (_ : AnonymousUser) (_ : Nat) : Bool := false

/-- `AnonymousUser.is_administrator`: always `False`. -/
def AnonymousUser.is_administrator (_ : AnonymousUser) : Bool := false

/-- `User.is_following`: `self.followed.filter_by(follower_id=user.id)
.first() is not None`. `self.followed` is the set of rows whose
`follower_id` equals the id of `self`; the source then filters it again by
`follower_id == user.id` (not `followed_id`), exactly as written. -/
def is_following (edges : List Follow) (selfId otherId : Nat) : Bool :=
  (((edges.filter (fun f => f.follower == selfId)).filter
      (fun f => f.follower == otherId)).head?).isSome

/-- `User.is_followed_by`: `self.followers.filter_by(follower_id=user.id)
.first() is not None`. `self.followers` is the set of rows whose
`followed_id` equals the id of `self`. -/
def is_followed_by (edges : List Follow) (selfId otherId : Nat) : Bool :=
  (((edges.filter (fun f => f.followed == selfId)).filter
      (fun f => f.follower == otherId)).head?).isSome

/-- `User.follow`: `if not self.is_following(user)`, add a new `Follow`
row with the current timestamp to the session. -/
def follow (edges : List Follow) (now selfId otherId : Nat) : List Follow :=
  if is_following edges selfId otherId then edges
  else edges ++ [{ follower := selfId, followed := otherId, timestamp := now }]

/-- `User.unfollow`: find the first row of `self.followed` with
`followed_id == user.id` and delete it from the session, if any. -/
def unfollow (edges : List Follow) (selfId otherId : Nat) : List Follow :=
  edges.eraseP (fun f => f.follower == selfId && f.followed == otherId)

/-- The last statement of `User.__init__`:
`self.followed.append(Follow(followed=self))` — a self-edge for the fresh
user is added to the table. -/
def userInitFollow (edges : List Follow) (uid now : Nat) : List Follow :=
  edges ++ [{ follower := uid, followed := uid, timestamp := now }]

/-- The ordered pair a `Follow` row stands for; per the schema the pair
(`follower_id`, `followed_id`) is the primary key, so it identifies the
edge. -/
def pairOf (f : Follow) : Nat × Nat := (f.follower, f.followed)

/-- `User.generate_confirmation_token`: serialize a dict mapping the key
confirm to `self.id`
into a signed, expiring token. A freshly generated, unexpired token decodes
back to its payload, so it is `some` of that payload here. -/
def generate_confirmation_token (u : User) : Tok :=
  some [("confirm", JVal.jnat u.id)]

/-- `User.confirm`: decode the token (`except: return False`), compare
the entry at key confirm of the payload with `self.id`, and only on a match set
`confirmed = True`. Returns the updated user and the boolean result; the
bare `except:` is modelled by totality over the `none` token. -/
def confirm (u : User) (token : Tok) : User × Bool :=
  match token with
  | none => (u, false)
  | some data =>
    if pgetNat data "confirm" != some u.id then (u, false)
    else ({ u with confirmed := true }, true)

/-- `User.generate_reset_token`: serialize a dict mapping the key
rest to `self.id` — the key the source writes is the literal string rest. -/
def generate_reset_token (u : User) : Tok :=
  some [("rest", JVal.jnat u.id)]

/-- `User.reset_password`: decode the token, compare the entry
at key reset of the payload with `self.id`, and only on a match run the password setter, which stores
`generate_password_hash(new_password)` (the werkzeug hash function is
passed in as `gph`). -/
def reset_password (gph : String → String) (u : User) (token : Tok)
    (new_password : String) : User × Bool :=
  match token with
  | none => (u, false)
  | some data =>
    if pgetNat data "reset" != some u.id then (u, false)
    else ({ u with password_hash := some (gph new_password) }, true)

/-- `User.generate_email_change_token`: serialize
a dict mapping change_email to `self.id` and new_email to the new address. -/
def generate_email_change_token (u : User) (new_email : String) : Tok :=
  some [("change_email", JVal.jnat u.id), ("new_email", JVal.jstr new_email)]

/-- `User.change_email`: decode the token, check
that the entry at key change_email equals `self.id`, read the entry at key
new_email (fail when absent), fail when another row already has that email
(`self.query.filter_by(email=new_email).first() is not None` over the user
table `db`), then set `self.email` and assign the fresh MD5 digest to
`self.avatar_has` — the attribute name as written in the source, which is
not the `avatar_hash` column (`md5f` is the hex-digest function). -/
def change_email (md5f : String → String) (db : List User) (u : User)
    (token : Tok) : User × Bool :=
  match token with
  | none => (u, false)
  | some data =>
    if pgetNat data "change_email" != some u.id then (u, false)
    else
      match pgetStr data "new_email" with
      | none => (u, false)
      | some new_email =>
        if ((db.filter (fun v => v.email == some new_email)).head?).isSome
        then (u, false)
        else ({ u with email := some new_email,
                       avatar_has := some (md5f new_email) }, true)

/-- Does `needle` occur at the head of `l`? -/
def startsWithChars : List Char → List Char → Bool
  | [], _ => true
  | _ :: _, [] => false
  | a :: as, b :: bs => a == b && startsWithChars as bs

/-- Does `needle` occur anywhere in the character list? -/
def hasSubChars (needle : List Char) : List Char → Bool
  | [] => needle.isEmpty
  | c :: rest => startsWithChars needle (c :: rest) || hasSubChars needle rest

/-- Substring test on strings. -/
def containsSub (needle hay : String) : Bool :=
  hasSubChars needle.toList hay.toList

/-- Split a character list at the first `>`: the part before it and the
part after it (the `>` itself dropped). -/
def splitUntilGt : List Char → List Char × List Char
  | [] => ([], [])
  | '>' :: rest => ([], rest)
  | c :: rest =>
    let p := splitUntilGt rest
    (c :: p.1, p.2)

/-- The element name of a tag body: skip a leading `/`, take the leading
alphanumeric run. -/
def tagNameOf (body : List Char) : String :=
  let b := match body with
           | '/' :: r => r
           | _ => body
  String.mk (b.takeWhile (fun c => c.isAlpha || c.isDigit))

/-- Modelled from the spec: the Markdown converter (the function `markdown` of the
external markdown library, called with html output format, is not in the
repository). Per the spec the lightweight markup is converted to markup
tree: `**text**` becomes a `<strong>` element, inline HTML and bare URLs
pass through, and the paragraph is wrapped in `<p>…</p>`. `findCloseStars`
splits at the next `**`. -/
def findCloseStars : List Char → Option (List Char × List Char)
  | [] => none
  | '*' :: '*' :: rest => some ([], rest)
  | c :: rest =>
    match findCloseStars rest with
    | some (a, b) => some (c :: a, b)
    | none => none

/-- Modelled from the spec: `**`-delimited runs become `<strong>` elements,
everything else is copied (fuel-indexed scanner). -/
def mdBoldF : Nat → List Char → List Char
  | 0, l => l
  | _, [] => []
  | fuel + 1, '*' :: '*' :: rest =>
    (match findCloseStars rest with
     | some (inner, after) =>
       "<strong>".toList ++ inner ++ "</strong>".toList ++ mdBoldF fuel after
     | none => '*' :: '*' :: mdBoldF fuel rest)
  | fuel + 1, c :: rest => c :: mdBoldF fuel rest

/-- Modelled from the spec: the external `markdown` converter. -/
def markdown (value : String) : String :=
  String.mk ("<p>".toList ++ mdBoldF (value.toList.length + 1) value.toList
    ++ "</p>".toList)

/-- Modelled from the spec: `bleach.clean(…, tags=allowed, strip=True)`
(external `bleach` library). Every tag whose element name is outside the
allow-list is stripped — the tag itself removed, its text content kept;
allow-listed tags are kept verbatim (fuel-indexed scanner). -/
def cleanTagsF (allowed : List String) : Nat → List Char → List Char
  | 0, l => l
  | _, [] => []
  | fuel + 1, '<' :: rest =>
    let p := splitUntilGt rest
    (if allowed.contains (tagNameOf p.1) then '<' :: p.1 ++ ['>'] else [])
      ++ cleanTagsF allowed fuel p.2
  | fuel + 1, c :: rest => c :: cleanTagsF allowed fuel rest

/-- Modelled from the spec: `bleach.clean` with `strip=True`. -/
def bleachClean (tags : List String) (s : String) : String :=
  String.mk (cleanTagsF tags (s.toList.length + 1) s.toList)

/-- A character that can extend a bare URL. -/
def isUrlChar (c : Char) : Bool := c != ' ' && c != '<' && c != '>'

/-- Modelled from the spec: `bleach.linkify` — bare `http://`/`https://`
URLs in text (not inside a tag) are wrapped in an anchor (fuel-indexed
scanner; existing tags are copied verbatim). -/
def linkifyF : Nat → List Char → List Char
  | 0, l => l
  | _, [] => []
  | fuel + 1, '<' :: rest =>
    let p := splitUntilGt rest
    '<' :: p.1 ++ '>' :: linkifyF fuel p.2
  | fuel + 1, c :: rest =>
    if startsWithChars "http://".toList (c :: rest)
        || startsWithChars "https://".toList (c :: rest) then
      let url := (c :: rest).takeWhile isUrlChar
      let after := (c :: rest).dropWhile isUrlChar
      "<a href=\"".toList ++ url ++ "\" rel=\"nofollow\">".toList ++ url
        ++ "</a>".toList ++ linkifyF fuel after
    else c :: linkifyF fuel rest

/-- Modelled from the spec: `bleach.linkify`. -/
def bleachLinkify (s : String) : String :=
  String.mk (linkifyF (s.toList.length + 1) s.toList)

/-- The `allowed_tags` list of `Post.on_changed_body`. -/
def postAllowedTags : List String :=
  ["a", "abbr", "acronym", "b", "blockquote", "code", "em", "i", "li", "ol",
   "pre", "strong", "ul", "h1", "h2", "h3", "p"]

/-- The `allowed_tags` list of `Comment.on_changed_body`. -/
def commentAllowedTags : List String :=
  ["a", "abbr", "acronym", "b", "code", "em", "i", "strong"]

/-- A row of the `posts` table (the two fields the rendering touches). -/
structure Post where
  body : String
  body_html : String
deriving DecidableEq, Repr

/-- `Post.on_changed_body`: `linkify(clean(markdown(value), tags=…,
strip=True))`, the value stored into `target.body_html`. -/
def Post.on_changed_body (value : String) : String :=
  bleachLinkify (bleachClean postAllowedTags (markdown value))

/-- `db.event.listen` registers `Post.on_changed_body` on the set event of
`Post.body`: every
assignment to `body` synchronously recomputes `body_html` from the new
value. -/
def setPostBody (p : Post) (value : String) : Post :=
  { p with body := value, body_html := Post.on_changed_body value }

/-- A row of the `comments` table. -/
structure Comment where
  body : String
  body_html : String
  disabled : Bool
deriving DecidableEq, Repr

/-- `Comment.on_changed_body`: same pipeline with the smaller tag list. -/
def Comment.on_changed_body (value : String) : String :=
  bleachLinkify (bleachClean commentAllowedTags (markdown value))

/-- `db.event.listen` registers `Comment.on_changed_body` likewise. -/
def setCommentBody (c : Comment) (value : String) : Comment :=
  { c with body := value, body_html := Comment.on_changed_body value }

/-- A role row and user used as concrete instances in witnesses. -/
def roleUser : Role := { name := "User", permissions := 7, default := true }

def u1 : User :=
  { id := 1, email := some "john@example.com", role := some roleUser,
    password_hash := none, confirmed := false, avatar_hash := none,
    avatar_has := none }

/-- Claim C1: for every user with a non-null role, `can` holds exactly when
the permission mask of the role bitwise-and the requested mask equals the
requested mask (a superset test), and the anonymous principal satisfies no
mask and is never an administrator. -/
theorem c1_can_bitmask (u : User) (r : Role) (m : Nat) (h : u.role = some r) :
    (u.can m = true ↔ Nat.land r.permissions m = m) ∧
    (∀ a : AnonymousUser, a.can m = false ∧ a.is_administrator = false) := by
  constructor
  · simp [User.can, h]
  · intro a
    exact ⟨rfl, rfl⟩

/-- Witness for C1 at a concrete user with the default role and mask
`FOLLOW`. -/
theorem c1_can_bitmask_witness :
    u1.role = some roleUser ∧
    ((u1.can 1 = true ↔ Nat.land roleUser.permissions 1 = 1) ∧
     (∀ a : AnonymousUser, a.can 1 = false ∧ a.is_administrator = false)) :=
  ⟨rfl, c1_can_bitmask u1 roleUser 1 rfl⟩

/-- Claim C5: immediately after `User.__init__` the table contains the
self-edge of the user, and `is_following(u, u)` is true. -/
theorem c5_self_follow_after_init (edges : List Follow) (uid now : Nat) :
    ({ follower := uid, followed := uid, timestamp := now } : Follow) ∈
      userInitFollow edges uid now ∧
    is_following (userInitFollow edges uid now) uid uid = true := by
  constructor
  · simp [userInitFollow]
  · unfold is_following
    rw [List.head?_isSome]
    have hmem : ({ follower := uid, followed := uid, timestamp := now } : Follow) ∈
        ((userInitFollow edges uid now).filter
          (fun f => f.follower == uid)).filter (fun f => f.follower == uid) := by
      simp [userInitFollow, List.mem_filter]
    exact List.ne_nil_of_mem hmem

/-- Claim C6: for a user whose role carries one of the permission masks
installed by `insert_roles`, `can(ADMINISTER)` implies `can(m)` for every
defined mask. -/
theorem c6_admin_implies_all (u : User) (r : Role) (hr : u.role = some r)
    (hperm : r.permissions ∈ rolePermissionValues)
    (hadm : u.can Permission.ADMINISTER = true)
    (m : Nat) (hm : m ∈ definedMasks) : u.can m = true := by
  have hcan : ∀ k : Nat, u.can k = (Nat.land r.permissions k == k) := by
    intro k
    simp [User.can, hr]
  rw [hcan] at hadm ⊢
  have hp : r.permissions = 7 ∨ r.permissions = 15 ∨ r.permissions = 255 := by
    simpa [rolePermissionValues, rolesDict, Permission.FOLLOW,
      Permission.COMMENT, Permission.WRITE_ARTICLES,
      Permission.MODERATE_COMMENTS] using hperm
  have hmval : m = 1 ∨ m = 2 ∨ m = 4 ∨ m = 8 ∨ m = 128 := by
    simpa [definedMasks, Permission.FOLLOW, Permission.COMMENT,
      Permission.WRITE_ARTICLES, Permission.MODERATE_COMMENTS,
      Permission.ADMINISTER] using hm
  rcases hp with h | h | h <;> rw [h] at hadm ⊢
  · exact absurd hadm (by decide)
  · exact absurd hadm (by decide)
  · rcases hmval with h' | h' | h' | h' | h' <;> rw [h'] <;> decide

/-- The administrator role row and a user holding it, for the C6 witness. -/
def roleAdmin : Role :=
  { name := "Administrator", permissions := 0xff, default := false }

def uAdmin : User :=
  { id := 2, email := some "admin@example.com", role := some roleAdmin,
    password_hash := none, confirmed := true, avatar_hash := none,
    avatar_has := none }

/-- Witness for C6: the administrator user can `FOLLOW`. -/
theorem c6_admin_implies_all_witness :
    roleAdmin.permissions ∈ rolePermissionValues ∧
    uAdmin.can Permission.ADMINISTER = true ∧
    uAdmin.can Permission.FOLLOW = true :=
  ⟨by decide, by decide,
    c6_admin_implies_all uAdmin roleAdmin rfl (by decide) (by decide)
      Permission.FOLLOW (by decide)⟩

/-- Edge table used for the C2 evaluation: two self-edges and the edge
(1, 2). -/
def exampleEdges : List Follow :=
  [{ follower := 1, followed := 1, timestamp := 0 },
   { follower := 2, followed := 2, timestamp := 0 },
   { follower := 1, followed := 2, timestamp := 5 }]

/-- Claim C2 evaluated on the code: the edge (1, 2) is present, yet
`is_following(u1, u2)` returns false, because the source filters
`self.followed` by `follower_id` instead of `followed_id`;
`is_followed_by(u2, u1)` does return true as claimed. -/
theorem c2_is_following_filters_wrong_column :
    ({ follower := 1, followed := 2, timestamp := 5 } : Follow) ∈ exampleEdges ∧
    is_following exampleEdges 1 2 = false ∧
    is_followed_by exampleEdges 2 1 = true := by decide

/-- Start state for the C3 evaluation: just the two self-edges. -/
def c3Start : List Follow :=
  [{ follower := 1, followed := 1, timestamp := 0 },
   { follower := 2, followed := 2, timestamp := 0 }]

/-- Claim C3 evaluated on the code: calling `follow(u1, u2)` twice does not
leave the edge table of a single call — the second call inserts a duplicate
(1, 2) row, because the `is_following` guard always reports false for
distinct users. -/
theorem c3_follow_not_idempotent :
    follow (follow c3Start 5 1 2) 6 1 2 ≠ follow c3Start 5 1 2 ∧
    (follow (follow c3Start 5 1 2) 6 1 2).countP
      (fun f => f.follower == 1 && f.followed == 2) = 2 := by decide

/-- For distinct ids the `is_following` filter pair is empty: no row has
two different follower ids. -/
theorem is_following_of_ne (edges : List Follow) {a b : Nat} (hab : a ≠ b) :
    is_following edges a b = false := by
  unfold is_following
  rw [List.filter_filter]
  have h : edges.filter (fun f => (f.follower == b) && (f.follower == a)) = [] := by
    rw [List.filter_eq_nil_iff]
    intro f _
    simp only [Bool.and_eq_true, beq_iff_eq, not_and]
    intro h1 h2
    exact absurd (h2.symm.trans h1) hab
  rw [h]
  rfl

/-- Claim C4 as stated is false: `unfollow(u, u)` deletes the self-edge. -/
theorem c4_self_edge_removable :
    ({ follower := 1, followed := 1, timestamp := 0 } : Follow) ∈
      ([{ follower := 1, followed := 1, timestamp := 0 }] : List Follow) ∧
    unfollow [{ follower := 1, followed := 1, timestamp := 0 }] 1 1 = [] := by
  decide

/-- Claim C4 (amended): for distinct users, `follow(a, b)` then
`unfollow(a, b)` restores the prior edge set — the multiset of
(follower, followed) pairs, which per the composite primary key
of the schema identifies the edges; and `unfollow(u, u)` deletes the
self-edge of the user
when one is present, shrinking the table by one row. -/
theorem c4_roundtrip_amended (edges : List Follow) (now a b u : Nat)
    (hab : a ≠ b)
    (hmem : ∃ f ∈ edges, f.follower = u ∧ f.followed = u) :
    List.Perm ((unfollow (follow edges now a b) a b).map pairOf)
      (edges.map pairOf) ∧
    (unfollow edges u u).length + 1 = edges.length := by
  constructor
  · rw [follow, is_following_of_ne edges hab]
    simp only [Bool.false_eq_true, if_false]
    unfold unfollow
    by_cases hx : ∃ f ∈ edges, (fun f => f.follower == a && f.followed == b) f = true
    · obtain ⟨f0, hf0, hp0⟩ := hx
      obtain ⟨f1, l₁, l₂, hnl, hp1, heq, herase⟩ :=
        @List.exists_of_eraseP Follow
          (fun f => f.follower == a && f.followed == b) edges f0 hf0 hp0
      rw [@List.eraseP_append_left Follow
            (fun f => f.follower == a && f.followed == b) f0 hp0 edges
            [{ follower := a, followed := b, timestamp := now }] hf0,
          herase, heq]
      simp only [List.map_append, List.map_cons, List.map_nil]
      refine (List.perm_append_singleton _ _).trans ?_
      have hpe : pairOf ({ follower := a, followed := b, timestamp := now } : Follow)
          = pairOf f1 := by
        have hp1' := hp1
        simp only [Bool.and_eq_true, beq_iff_eq] at hp1'
        simp [pairOf, hp1'.1, hp1'.2]
      rw [hpe]
      exact List.perm_middle.symm
    · push_neg at hx
      rw [List.eraseP_append_right]
      · simp only [List.eraseP_cons, beq_self_eq_true, Bool.and_self, cond_true]
        simp only [List.append_nil]
        exact List.Perm.refl _
      · intro f hf
        exact hx f hf
  · obtain ⟨f, hf, h1, h2⟩ := hmem
    have hp : (fun g => g.follower == u && g.followed == u) f = true := by
      simp [h1, h2]
    unfold unfollow
    exact List.length_eraseP_add_one hf hp

/-- Edge table with a single self-edge, for the C4 witness. -/
def c4Edges : List Follow := [{ follower := 1, followed := 1, timestamp := 0 }]

/-- Witness for the amended C4 at users 1 and 2 over `c4Edges`. -/
theorem c4_roundtrip_amended_witness :
    (1 : Nat) ≠ 2 ∧
    (List.Perm ((unfollow (follow c4Edges 5 1 2) 1 2).map pairOf)
      (c4Edges.map pairOf) ∧
    (unfollow c4Edges 1 1).length + 1 = c4Edges.length) :=
  ⟨by decide, c4_roundtrip_amended c4Edges 5 1 2 1 (by decide)
    ⟨{ follower := 1, followed := 1, timestamp := 0 }, by decide, rfl, rfl⟩⟩

/-- Concrete user for the C7 evaluation. -/
def u7 : User :=
  { id := 1, email := some "john@example.com", role := none,
    password_hash := some "oldhash", confirmed := false, avatar_hash := none,
    avatar_has := none }

/-- Claim C7 evaluated on the code: a fresh, valid token from
`generate_reset_token` is rejected by `reset_password`, which returns
`False` and leaves the user (password hash included) unchanged — the
generator serializes the key rest while the verifier reads the key reset,
so the identity check never matches. -/
theorem c7_reset_token_key_mismatch :
    reset_password (fun s => String.append s "hashed") u7
      (generate_reset_token u7) "dog" = (u7, false) ∧
    pgetNat [("rest", JVal.jnat u7.id)] "reset" = none := by
  exact ⟨rfl, rfl⟩

/-- Claim C8: `confirm` fails closed. An undecodable (tampered or expired)
token yields `False` with the user unchanged; a payload whose `confirm` id
differs from the id of the acting user yields `False` with the user unchanged — in
particular a token generated by user `a` checked by a distinct user `b`;
and whenever `confirm` returns `True`, the token decoded to a payload whose
confirm id equals the id of the acting user, and only the `confirmed` flag was
set. -/
theorem c8_confirm_fail_closed :
    (∀ u : User, confirm u none = (u, false)) ∧
    (∀ (u : User) (d : List (String × JVal)),
      pgetNat d "confirm" ≠ some u.id → confirm u (some d) = (u, false)) ∧
    (∀ a b : User, a.id ≠ b.id →
      confirm b (generate_confirmation_token a) = (b, false)) ∧
    (∀ (u u' : User) (t : Tok), confirm u t = (u', true) →
      u' = { u with confirmed := true } ∧
      ∃ d, t = some d ∧ pgetNat d "confirm" = some u.id) := by
  refine ⟨fun u => rfl, ?_, ?_, ?_⟩
  · intro u d h
    have hb : (pgetNat d "confirm" != some u.id) = true := by
      simpa [bne_iff_ne] using h
    simp [confirm, hb]
  · intro a b hab
    have hg : pgetNat [("confirm", JVal.jnat a.id)] "confirm" = some a.id := rfl
    have hb : (pgetNat [("confirm", JVal.jnat a.id)] "confirm" != some b.id)
        = true := by
      rw [hg]
      simpa [bne_iff_ne] using hab
    simp [confirm, generate_confirmation_token, hb]
  · intro u u' t h
    cases t with
    | none =>
      exact absurd (congrArg Prod.snd h) (by simp [confirm])
    | some d =>
      by_cases hb : (pgetNat d "confirm" != some u.id) = true
      · rw [show confirm u (some d) = (u, false) by simp [confirm, hb]] at h
        exact absurd (congrArg Prod.snd h) (by simp)
      · rw [Bool.not_eq_true] at hb
        have hbv : pgetNat d "confirm" = some u.id := by
          simpa [bne_eq_false_iff_eq] using hb
        rw [show confirm u (some d) = ({ u with confirmed := true }, true) by
              simp [confirm, hb]] at h
        refine ⟨(congrArg Prod.fst h).symm, d, rfl, hbv⟩

/-- Concrete users for the C8 witness: `uB` checks a token minted for
`uA`. -/
def uA : User :=
  { id := 11, email := some "a@example.com", role := none,
    password_hash := none, confirmed := false, avatar_hash := none,
    avatar_has := none }

def uB : User :=
  { id := 12, email := some "b@example.com", role := none,
    password_hash := none, confirmed := false, avatar_hash := none,
    avatar_has := none }

/-- Witness for C8: the cross-user conjunct at `uA`, `uB`. -/
theorem c8_confirm_fail_closed_witness :
    uA.id ≠ uB.id ∧ confirm uB (generate_confirmation_token uA) = (uB, false) :=
  ⟨by decide, c8_confirm_fail_closed.2.2.1 uA uB (by decide)⟩

/-- The body text of the C9 example. -/
def c9Input : String := "**bold** <script>alert(1)</script> http://x.com"

/-- Claim C9: every assignment to `body` (a set event) synchronously
recomputes `body_html` as a pure function of the new value; the comment
allow-list is a strict subset of the post allow-list; and on the example
body the rendered output keeps a `<strong>` element, drops the `<script>`
element, and wraps the bare URL in an anchor. -/
theorem c9_render_on_set :
    (∀ (p : Post) (v : String),
      (setPostBody p v).body = v ∧
      (setPostBody p v).body_html = Post.on_changed_body v) ∧
    (∀ (c : Comment) (v : String),
      (setCommentBody c v).body = v ∧
      (setCommentBody c v).body_html = Comment.on_changed_body v) ∧
    (commentAllowedTags.all (fun t => postAllowedTags.contains t) = true ∧
     postAllowedTags.contains "p" = true ∧
     commentAllowedTags.contains "p" = false) ∧
    (containsSub "<strong>" (setPostBody ⟨"", ""⟩ c9Input).body_html = true ∧
     containsSub "<script" (setPostBody ⟨"", ""⟩ c9Input).body_html = false ∧
     containsSub "<a href=\"http://x.com\" rel=\"nofollow\">http://x.com</a>"
       (setPostBody ⟨"", ""⟩ c9Input).body_html = true) := by
  exact ⟨fun p v => ⟨rfl, rfl⟩, fun c v => ⟨rfl, rfl⟩, by decide, by decide⟩

/-- Concrete user and post-change image for the C10 witness. -/
def u10 : User :=
  { id := 3, email := some "john@example.com", role := none,
    password_hash := none, confirmed := true,
    avatar_hash := some "oldavatardigest", avatar_has := none }

def u10out : User :=
  { u10 with email := some "susan@example.org",
             avatar_has := some "susan@example.org" }

/-- Claim C10: whenever `change_email` succeeds, `email` is set to the
`new_email` value of the token, `avatar_hash` is left unchanged, and the freshly
computed digest lands in the distinct attribute `avatar_has`. -/
theorem c10_change_email_frame (md5f : String → String) (db : List User)
    (u u' : User) (t : Tok) (h : change_email md5f db u t = (u', true)) :
    u'.avatar_hash = u.avatar_hash ∧
    ∃ d s, t = some d ∧ pgetStr d "new_email" = some s ∧
      u'.email = some s ∧ u'.avatar_has = some (md5f s) := by
  cases t with
  | none =>
    exact absurd (congrArg Prod.snd h) (by simp [change_email])
  | some d =>
    by_cases h1 : (pgetNat d "change_email" != some u.id) = true
    · rw [show change_email md5f db u (some d) = (u, false) by
          simp [change_email, h1]] at h
      exact absurd (congrArg Prod.snd h) (by simp)
    · rw [Bool.not_eq_true] at h1
      cases h2 : pgetStr d "new_email" with
      | none =>
        rw [show change_email md5f db u (some d) = (u, false) by
            simp [change_email, h1, h2]] at h
        exact absurd (congrArg Prod.snd h) (by simp)
      | some s =>
        by_cases h3 : ((db.filter (fun v => v.email == some s)).head?).isSome
            = true
        · rw [show change_email md5f db u (some d) = (u, false) by
              simp only [change_email, h1, h2, h3, Bool.false_eq_true,
                if_false, if_true]] at h
          exact absurd (congrArg Prod.snd h) (by simp)
        · rw [Bool.not_eq_true] at h3
          rw [show change_email md5f db u (some d)
                = ({ u with email := some s,
                            avatar_has := some (md5f s) }, true) by
              simp only [change_email, h1, h2, h3, Bool.false_eq_true,
                if_false, if_true]] at h
          have hu : ({ u with email := some s,
                              avatar_has := some (md5f s) } : User) = u' :=
            congrArg Prod.fst h
          refine ⟨by rw [← hu], d, s, rfl, h2, by rw [← hu], by rw [← hu]⟩

/-- Witness for C10: `u10` redeems its own email-change token for
`susan@example.org` against a one-row user table. -/
theorem c10_change_email_frame_witness :
    change_email (fun s => s) [u10] u10
      (generate_email_change_token u10 "susan@example.org") = (u10out, true) ∧
    (u10out.avatar_hash = u10.avatar_hash ∧
     ∃ d s, generate_email_change_token u10 "susan@example.org" = some d ∧
       pgetStr d "new_email" = some s ∧ u10out.email = some s ∧
       u10out.avatar_has = some s) :=
  ⟨rfl, c10_change_email_frame (fun s => s) [u10] u10 u10out
    (generate_email_change_token u10 "susan@example.org") rfl⟩
